import Mathlib

/-!
Formal model of the ordamo-v3-sdk handshake state machine and session persistence.

This file is a shallow embedding, in Lean 4, of the core of the
`ordamo-v3-sdk` repository: the `OrdamoSDK` class lifecycle (construction,
the `init` handshake, accessors, readiness notification, app close) and the
session save/restore protocol.

The repository contains several historical revisions of the same SDK.  We
embed the revisions the claims refer to:

* namespace `SdkV1` — the revision in `src/src/index.ts` (content schema
  validation, `StoredState` with `state`/`timestamp` only);
* namespace `SdkV2` — the revision with `getTableLabel`, and
  `StoredState` carrying `appVersion`/`sessionId` (the file called
  `part_002` here);
* namespace `SdkLegacy` — the early revision whose init message carries the
  layout fields (`plateSpots` etc.) at the top level (`part_001`);
* namespace `SdkV3` — the revision with the `shapes` → `plateSpots`
  duck-typing normalization and a nested `layout` field (`part_003`).

JavaScript values occurring in the untyped (`any`) positions are modelled by
the inductive type `JVal`; JavaScript exceptions are modelled by explicit
`Option String` / `Except String` results, with the convention that mutations
performed before a throw persist (as they do in JavaScript).
-/

set_option autoImplicit false

namespace Ordamo

/-- Model of an untyped JavaScript (JSON-like) value.  `jnull` stands for the
JavaScript `null`; the absence of a value (`undefined`) is modelled at use
sites by `Option JVal`. -/
inductive JVal where
  | jnull : JVal
  | jbool (b : Bool) : JVal
  | jnum (n : Int) : JVal
  | jstr (s : String) : JVal
  | jarr (elems : List JVal) : JVal
  | jobj (fields : List (String × JVal)) : JVal

/-- JavaScript truthiness of a `JVal` (`null`, `false`, `0` and the empty
string are falsy; every array and object is truthy). -/
def truthy : JVal → Bool
  | .jnull => false
  | .jbool b => b
  | .jnum n => n != 0
  | .jstr s => s != ""
  | .jarr _ => true
  | .jobj _ => true

/-- The JavaScript `typeof` operator restricted to the values of `JVal`. -/
def typeOf : JVal → String
  | .jnull => "object"
  | .jbool _ => "boolean"
  | .jnum _ => "number"
  | .jstr _ => "string"
  | .jarr _ => "object"
  | .jobj _ => "object"

/-- The JavaScript `key in value` test.  It is legal on objects and arrays
(array keys are the decimal index strings) and throws a `TypeError` on
primitives. -/
def jInOperator (v : JVal) (key : String) : Except String Bool :=
  match v with
  | .jobj fields => .ok (fields.any (fun p => p.1 == key))
  | .jarr elems => .ok ((((List.range elems.length).map (fun i => toString i))).contains key)
  | _ => .error "TypeError: cannot use the in operator on a primitive"

/-- Property read `value[key]`, returning `none` for `undefined`. -/
def jGet (v : JVal) (key : String) : Option JVal :=
  match v with
  | .jobj fields => (fields.find? (fun p => p.1 == key)).map Prod.snd
  | .jarr elems => key.toNat?.bind (fun i => elems.get? i)
  | _ => none

/-- Property read `value[key]` at a key known to be present (defaults to
`null`; only used after an `in` test has succeeded). -/
def jGetD (v : JVal) (key : String) : JVal :=
  (jGet v key).getD JVal.jnull

/-- The three running modes of the SDK (`RunningMode` in the source).
Resolution: no `window` → `UNIT_TESTS`; `window === top` → `DEVELOPMENT`;
otherwise `HOSTED`.  Fixed at module load, never re-evaluated. -/
inductive RunningMode where
  | HOSTED : RunningMode
  | DEVELOPMENT : RunningMode
  | UNIT_TESTS : RunningMode
deriving DecidableEq

/-- `const MAX_SAVED_STATE_SECONDS = 10 * 60`. -/
def MAX_SAVED_STATE_SECONDS : Int := 10 * 60

/-- A circular plate spot (`Circle` in the source). -/
structure Circle where
  type : String
  id : Int
  x : Int
  y : Int
  radius : Int
  borderWidth : Int
  rotationDegrees : Int
deriving DecidableEq

/-- A rectangular content area (`Rectangle` in the source). -/
structure Rectangle where
  type : String
  id : Int
  x : Int
  y : Int
  width : Int
  height : Int
  rotationDegrees : Int
deriving DecidableEq

/-- Table geometry (`Layout` in the source). -/
structure Layout where
  plateSpots : List Circle
  widthPx : Int
  heightPx : Int
  resolutionPixelsPerCm : Int
  contentAreas : List Rectangle
deriving DecidableEq

/-- Messages posted by the SDK to the parent frame
(`_sendParentMessage` calls). -/
inductive OutMsg where
  | load (fullscreen : Bool) : OutMsg
  | ready : OutMsg
  | close : OutMsg
deriving DecidableEq

/-- Number of `ready` announcements in a list of sent messages. -/
def readyCount (sent : List OutMsg) : Nat :=
  sent.count OutMsg.ready

/-- A content schema entry (`ContentDescriptor` plus, for `list` entries, the
`type` of its `items` descriptor).  Schemas are records mapping field names to
descriptors; we keep the insertion order of the record. -/
structure SchemaItem where
  type : String
  itemsType : Option String
deriving DecidableEq

/-- The inner `validateType` helper of `validateContent`
(src/src/index.ts): every item must have the expected `typeof`, otherwise an
error naming the first offender is thrown. -/
def validateType (items : List JVal) (expectedType : String)
    (expectedTypeHuman : String) (key : String) : Except String Unit :=
  match items with
  | [] => .ok ()
  | item :: rest =>
    if typeOf item == expectedType then
      validateType rest expectedType expectedTypeHuman key
    else
      .error ("Expected content." ++ key ++ " to be " ++ expectedTypeHuman
        ++ ", but it contains a " ++ typeOf item)

/-- Validation of one schema entry against the content object: the key must
be present in the content, `image`/`text` entries must hold strings,
`number` entries numbers, and `list` entries arrays (string arrays when the
item descriptor is `image`/`text`).  The final `schemaItem.type == "number"`
test inside the `list` branch reproduces the source, where the array-of-
numbers check tests `schemaItem.type` (always `"list"` there) instead of
`schemaItem.items.type`, and therefore never fires. -/
def validateSchemaItem (key : String) (schemaItem : SchemaItem)
    (content : JVal) : Except String Unit := do
  let present ← jInOperator content key
  if !present then
    throw ("Schema contains item " ++ key ++ " that is missing from the content.")
  let v := jGetD content key
  if schemaItem.type == "image" || schemaItem.type == "text" then
    validateType [v] "string" "a string" key
  if schemaItem.type == "number" then
    validateType [v] "number" "a number" key
  if schemaItem.type == "list" then
    match v with
    | .jarr elems =>
      (if schemaItem.itemsType == some "image" || schemaItem.itemsType == some "text" then
        validateType elems "string" "an array of strings" key
      else pure ()) >>= fun _ =>
      (if schemaItem.type == "number" then
        validateType elems "number" "an array of numbers" key
      else pure ())
    | _ =>
      throw ("Expected content." ++ key ++ " to be an array, but it is a " ++ typeOf v)

/-- First loop of `validateContent`: every schema key validates against the
content. -/
def validateSchemaKeys (schema : List (String × SchemaItem)) (content : JVal) :
    Except String Unit :=
  match schema with
  | [] => .ok ()
  | (key, schemaItem) :: rest => do
    validateSchemaItem key schemaItem content
    validateSchemaKeys rest content

/-- Second loop of `validateContent`: every own key of the content must exist
in the schema. -/
def validateContentKeys (schemaKeys : List String) (contentKeys : List String) :
    Except String Unit :=
  match contentKeys with
  | [] => .ok ()
  | key :: rest =>
    if schemaKeys.contains key then validateContentKeys schemaKeys rest
    else .error ("Content contains item " ++ key ++ " that does not exist in the schema.")

/-- Own enumerable keys of a JavaScript value (used by `for ... in`):
object field names, array index strings, nothing for primitives. -/
def jOwnKeys : JVal → List String
  | .jobj fields => fields.map Prod.fst
  | .jarr elems => (List.range elems.length).map (fun i => toString i)
  | _ => []

/-- `validateContent(schema, content)` from src/src/index.ts: shallow
shape validation of a content object against a schema; throws (returns
`.error`) on the first violation. -/
def validateContent (schema : List (String × SchemaItem)) (content : JVal) :
    Except String Unit := do
  validateSchemaKeys schema content
  validateContentKeys (schema.map Prod.fst) (jOwnKeys content)

/-- One entry of the `_content` record: the copied schema descriptor plus
the `value` field assigned from the init message content (`none` before the
assignment loop runs). -/
abbrev ContentEntry := String × SchemaItem × Option JVal

/-- `this._content = JSON.parse(JSON.stringify(this._options.contentSchema))`:
a deep copy of the schema, with no `value` fields set yet. -/
def schemaCopy (schema : List (String × SchemaItem)) : List ContentEntry :=
  schema.map (fun p => (p.1, p.2, none))

/-- The loop `for (let prop in this._content) this._content[prop].value =
this._initMessage.content[prop]`. -/
def fillValues (schema : List (String × SchemaItem)) (content : JVal) :
    List ContentEntry :=
  schema.map (fun p => (p.1, p.2, jGet content p.1))

/-- `logError`: `console.error` in hosted mode, `throw new Error(message)`
otherwise (identical in every SDK revision embedded here). -/
def logErrorResult (mode : RunningMode) (message : String) : Option String :=
  if mode = RunningMode.HOSTED then none else some message

namespace SdkV1

/-- `InitMessage` of src/src/index.ts: `content` is untyped
(possibly `null`), `layout` is the table geometry. -/
structure InitMessage where
  content : JVal
  layout : Layout
  table : String
  version : String

/-- The constructor options of src/src/index.ts that affect the
behaviour modelled here.  `saveStateCallback = some v` models a configured
save-state callback returning the snapshot `v`; `none` models an absent
callback. -/
structure Options where
  contentSchema : List (String × SchemaItem)
  saveStateCallback : Option JVal
  fullscreen : Bool

/-- The mutable fields of an `OrdamoSDK` instance
(src/src/index.ts) relevant to this model, plus the trace of
messages posted to the parent frame. -/
structure SdkState where
  initMessage : Option InitMessage
  content : Option (List ContentEntry)
  sentReadyEvent : Bool
  savedState : Option JVal
  sent : List OutMsg

/-- Field values at the end of the field initialisers of the class body. -/
def initialState : SdkState :=
  { initMessage := none
    content := none
    sentReadyEvent := false
    savedState := none
    sent := [] }

/-- `_finishInitialisation` (src/src/index.ts).  `c` is
`this._initMessage.content`.  The `_content` copy of the schema is assigned
BEFORE `validateContent` runs, so when validation throws, the copied (still
value-less) schema stays behind — the returned state therefore carries it in
both branches.  The `initCallback` invocation and the 5-second readiness
watchdog perform no state change modelled here. -/
def finishInitialisation (opts : Options) (c : JVal) (st : SdkState) :
    SdkState × Option String :=
  let st1 := { st with content := some (schemaCopy opts.contentSchema) }
  match validateContent opts.contentSchema c with
  | .error e => (st1, some e)
  | .ok _ => ({ st1 with content := some (fillValues opts.contentSchema c) }, none)

/-- `_receiveInitMessage` (src/src/index.ts): a duplicate init message is
passed to `logError` and dropped; otherwise the message is stored, and
initialisation finishes directly (truthy content) or a background fetch of
`default-content.json` is issued (falsy content; the fetch completion is
modelled by `loadDefaultContentResult`). -/
def receiveInitMessage (mode : RunningMode) (opts : Options)
    (message : InitMessage) (st : SdkState) : SdkState × Option String :=
  if st.initMessage.isSome then
    (st, logErrorResult mode "Duplicate init message received, ignoring")
  else
    let st1 := { st with initMessage := some message }
    if truthy message.content then finishInitialisation opts message.content st1
    else (st1, none)

/-- Completion of the `default-content.json` XHR issued by
`_loadDefaultContentFile` (src/src/index.ts).  `result = none` models a
non-200 status or a JSON parse failure (both only log an error);
`result = some c` models a 200 response whose body parsed to `c`.  A falsy
parsed value leaves the machine stalled (`if (content)`), a truthy one is
merged into the stored init message and initialisation finishes. -/
def loadDefaultContentResult (opts : Options) (st : SdkState)
    (result : Option JVal) : SdkState × Option String :=
  match result with
  | none => (st, none)
  | some c =>
    if truthy c then
      match st.initMessage with
      | none => (st, some "TypeError: cannot set property content of undefined")
      | some m =>
        let st1 := { st with initMessage := some { m with content := c } }
        finishInitialisation opts c st1
    else (st, none)

/-- Inbound `window` messages dispatched to `_handleParentMessage`.
`interactions` and `navigate` messages only invoke the corresponding
caller-supplied callbacks, which are outside the SDK state modelled here. -/
inductive Message where
  | init (m : InitMessage) : Message
  | interactions : Message
  | navigate (navigateButtonId : String) : Message
  | other (eventType : String) : Message

/-- `_handleParentMessage` (src/src/index.ts): an `init` event is dropped
with a `console.error` when an init message is already stored, and otherwise
forwarded to `_receiveInitMessage`; `interactions` and `navigate` events
dispatch to the app callbacks; anything else is ignored. -/
def handleParentMessage (mode : RunningMode) (opts : Options) (st : SdkState)
    (msg : Message) : SdkState × Option String :=
  match msg with
  | .init m =>
    if st.initMessage.isSome then (st, none)
    else receiveInitMessage mode opts m st
  | .interactions => (st, none)
  | .navigate _ => (st, none)
  | .other _ => (st, none)

/-- Delivery of a list of messages, in order, through
`_handleParentMessage`. -/
def handleAll (mode : RunningMode) (opts : Options) (st : SdkState) :
    List Message → SdkState
  | [] => st
  | m :: rest => handleAll mode opts (handleParentMessage mode opts st m).1 rest

/-- `notifyAppIsReady` (src/src/index.ts): throws before an init message
exists; otherwise, on the first call only, records the ready event and (in
hosted mode) posts the `ready` announcement. -/
def notifyAppIsReady (mode : RunningMode) (st : SdkState) :
    SdkState × Option String :=
  if st.initMessage.isNone then
    (st, some "Illegal call to notifyAppIsReady() before init callback has fired.")
  else if st.sentReadyEvent then (st, none)
  else
    let st1 := { st with sentReadyEvent := true }
    if mode = RunningMode.HOSTED then
      ({ st1 with sent := st1.sent ++ [OutMsg.ready] }, none)
    else (st1, none)

/-- `n` successive calls to `notifyAppIsReady`. -/
def notifyIter (mode : RunningMode) (st : SdkState) : Nat → SdkState
  | 0 => st
  | n + 1 => (notifyAppIsReady mode (notifyIter mode st n)).1

/-- `getContent` (src/src/index.ts): `_requireInitMessage` then return
`this._content`. -/
def getContent (st : SdkState) : Except String (Option (List ContentEntry)) :=
  match st.initMessage with
  | none => .error "The SDK has not initialised yet."
  | some _ => .ok st.content

/-- `getLayout` (src/src/index.ts): `_requireInitMessage` then return
`this._initMessage.layout`. -/
def getLayout (st : SdkState) : Except String Layout :=
  match st.initMessage with
  | none => .error "The SDK has not initialised yet."
  | some m => .ok m.layout

/-- `getSavedState` (src/src/index.ts): `_requireInitMessage` then return
`this._savedState`. -/
def getSavedState (st : SdkState) : Except String (Option JVal) :=
  match st.initMessage with
  | none => .error "The SDK has not initialised yet."
  | some _ => .ok st.savedState

/-- The throwing prefix of the `OrdamoSDK` constructor
(src/src/index.ts): in development mode the Chrome version check runs
first (alert + throw on failure, before the instance guard); then the
instance guard throws if an instance was already created and the mode is not
`UNIT_TESTS`; then `INSTANCE_CREATED = true`.  The remainder of the
constructor (listener registration, the `load` announcement, the development
mock init message, touch emulation, `_restoreState`) contains no throwing
statement.  Arguments: `goodBrowser` is the outcome of the Chrome
user-agent test, `instanceCreated` the process-wide `INSTANCE_CREATED` flag;
the result is the new flag and the thrown error, if any. -/
def construct (mode : RunningMode) (goodBrowser : Bool)
    (instanceCreated : Bool) : Bool × Option String :=
  if mode = RunningMode.DEVELOPMENT && !goodBrowser then
    (instanceCreated, some "Bad browser")
  else if instanceCreated && !(mode = RunningMode.UNIT_TESTS) then
    (instanceCreated, some "Only one instance of OrdamoSDK may be created per application")
  else (true, none)

end SdkV1

namespace SdkV2

/-- `InitMessage` of the part_002 revision: adds the `sessionId` (changes
whenever a new group is seated) and the optional required dimensions. -/
structure InitMessage where
  content : JVal
  layout : Layout
  table : String
  version : String
  sessionId : Int
  requiredWidth : Option Int
  requiredHeight : Option Int

/-- Constructor options of the part_002 revision: the content schema is
optional in this revision (`if (this._contentSchema)` guards in the source);
`saveStateCallback = some v` models a configured callback returning the
snapshot `v`. -/
structure Options where
  contentSchema : Option (List (String × SchemaItem))
  saveStateCallback : Option JVal
  fullscreen : Bool

/-- `StoredState` of the part_002 revision, as written by `_saveState`:
the snapshot, the write time, and the app version and session id of the
current init message. -/
structure StoredState where
  state : JVal
  timestamp : Int
  appVersion : String
  sessionId : Int

/-- Contents of the per-path `sessionStorage` slot: either the JSON
serialization of a `StoredState` record (which `JSON.parse` round-trips), or
a string `JSON.parse` rejects. -/
inductive SlotValue where
  | malformed : SlotValue
  | json (save : StoredState) : SlotValue

/-- The mutable fields of an `OrdamoSDK` instance (part_002 revision) plus
the trace of messages posted to the parent frame.  The `sessionStorage`
slot is threaded explicitly through the operations that touch it. -/
structure SdkState where
  initMessage : Option InitMessage
  content : Option (List ContentEntry)
  sentReadyEvent : Bool
  savedState : Option JVal
  sent : List OutMsg

/-- Field values at the end of the field initialisers of the class body. -/
def initialState : SdkState :=
  { initMessage := none
    content := none
    sentReadyEvent := false
    savedState := none
    sent := [] }

/-- `_finishInitialisation` (part_002): when a content schema exists, copy
it into `_content` and assign each `value` from the init message content; no
schema validation happens in this revision, so nothing can throw.  `c` is
`this._initMessage.content`. -/
def finishInitialisation (opts : Options) (c : JVal) (st : SdkState) : SdkState :=
  match opts.contentSchema with
  | none => st
  | some schema =>
    let st1 := { st with content := some (schemaCopy schema) }
    { st1 with content := some (fillValues schema c) }

/-- `_saveState` (part_002): with a configured callback, stamp the snapshot
with the current time and the current init message version and session id
and write it to the slot.  Before any init message has been accepted,
`this._initMessage.version` throws a `TypeError` (and nothing is written). -/
def saveState (opts : Options) (st : SdkState) (now : Int)
    (slot : Option SlotValue) : Option SlotValue × Option String :=
  match opts.saveStateCallback with
  | none => (slot, none)
  | some snapshot =>
    match st.initMessage with
    | none => (slot, some "TypeError: cannot read property version of undefined")
    | some m =>
      (some (SlotValue.json
        { state := snapshot
          timestamp := now
          appVersion := m.version
          sessionId := m.sessionId }), none)

/-- `_restoreState` (part_002).  An absent slot does nothing.  Otherwise the
whole chain runs inside `try`/`catch`: a parse failure clears the slot; a
stored `appVersion` different from the current init message version clears
the slot; a stored `sessionId` different from the current session clears the
slot; a record strictly older than `MAX_SAVED_STATE_SECONDS` clears the
slot; otherwise `_savedState` receives the stored snapshot.  When called
with no init message stored, the version read throws a `TypeError` that the
`catch` turns into a wipe.  No exception escapes. -/
def restoreState (st : SdkState) (now : Int) (slot : Option SlotValue) :
    SdkState × Option SlotValue :=
  match slot with
  | none => (st, slot)
  | some SlotValue.malformed => (st, none)
  | some (SlotValue.json save) =>
    match st.initMessage with
    | none => (st, none)
    | some m =>
      if save.appVersion ≠ m.version then (st, none)
      else if save.sessionId ≠ m.sessionId then (st, none)
      else if now - save.timestamp > MAX_SAVED_STATE_SECONDS * 1000 then (st, none)
      else ({ st with savedState := some save.state }, slot)

/-- `_receiveInitMessage` (part_002): a duplicate init message goes to
`logError` and is dropped; otherwise the message is stored, `_restoreState`
runs, and initialisation finishes directly (truthy content, or no content
schema) or the `default-content.json` fetch is issued. -/
def receiveInitMessage (mode : RunningMode) (opts : Options)
    (message : InitMessage) (now : Int) (st : SdkState)
    (slot : Option SlotValue) :
    SdkState × Option SlotValue × Option String :=
  if st.initMessage.isSome then
    (st, slot, logErrorResult mode "Duplicate init message received, ignoring")
  else
    let st1 := { st with initMessage := some message }
    let restored := restoreState st1 now slot
    if truthy message.content || opts.contentSchema.isNone then
      (finishInitialisation opts message.content restored.1, restored.2, none)
    else (restored.1, restored.2, none)

/-- `requestAppClose` (part_002): in hosted mode post the `close`
announcement (in development mode only cosmetic DOM changes happen); then,
whenever a save callback is configured, `_saveState` runs — which throws if
no init message has been accepted yet. -/
def requestAppClose (mode : RunningMode) (opts : Options) (st : SdkState)
    (now : Int) (slot : Option SlotValue) :
    SdkState × Option SlotValue × Option String :=
  let st1 :=
    if mode = RunningMode.HOSTED then { st with sent := st.sent ++ [OutMsg.close] }
    else st
  if opts.saveStateCallback.isSome then
    let saved := saveState opts st1 now slot
    (st1, saved.1, saved.2)
  else (st1, slot, none)

/-- `getContent` (part_002): `_requireInitMessage` then return
`this._content`. -/
def getContent (st : SdkState) : Except String (Option (List ContentEntry)) :=
  match st.initMessage with
  | none => .error "The SDK has not initialised yet."
  | some _ => .ok st.content

/-- `getLayout` (part_002): `_requireInitMessage` then return
`this._initMessage.layout`. -/
def getLayout (st : SdkState) : Except String Layout :=
  match st.initMessage with
  | none => .error "The SDK has not initialised yet."
  | some m => .ok m.layout

/-- `getTableLabel` (part_002): `_requireInitMessage` then return
`this._initMessage.table`. -/
def getTableLabel (st : SdkState) : Except String String :=
  match st.initMessage with
  | none => .error "The SDK has not initialised yet."
  | some m => .ok m.table

/-- `getSavedState` (part_002): `_requireInitMessage` then return
`this._savedState`. -/
def getSavedState (st : SdkState) : Except String (Option JVal) :=
  match st.initMessage with
  | none => .error "The SDK has not initialised yet."
  | some _ => .ok st.savedState

end SdkV2

namespace SdkLegacy

/-- An inbound init message of the early (part_001) revision, in which the
layout data (`plateSpots`, dimensions, `contentAreas`) lives at the TOP
LEVEL of the message (`SDKInitMessage`).  Old API servers named the
`plateSpots` field `shapes`; either field may therefore be absent on the
wire, hence the `Option`s. -/
structure RawInitMessage where
  plateSpots : Option (List Circle)
  shapes : Option (List Circle)
  widthPx : Int
  heightPx : Int
  resolutionPixelsPerCm : Int
  contentAreas : List Rectangle

/-- The duck-typing normalization applied at message ingress
(`_handleParentMessage`, part_001): `if (duckMessage.shapes &&
!duckMessage.plateSpots) duckMessage.plateSpots = duckMessage.shapes`.
Arrays are always truthy in JavaScript, so the test is presence of `shapes`
and absence of `plateSpots`. -/
def normalizeDuckMessage (m : RawInitMessage) : RawInitMessage :=
  if m.shapes.isSome && m.plateSpots.isNone then { m with plateSpots := m.shapes }
  else m

/-- The part of the part_001 instance state relevant to message ingress. -/
structure SdkState where
  initMessage : Option RawInitMessage

/-- The `init` branch of `_handleParentMessage` (part_001): a second init
message is dropped with a `console.error`; a first one is normalized and
stored (the content acceptance and the init callback do not touch the
stored message). -/
def handleInitMessage (st : SdkState) (m : RawInitMessage) : SdkState :=
  if st.initMessage.isSome then st
  else { st with initMessage := some (normalizeDuckMessage m) }

end SdkLegacy

namespace SdkV3

/-- An inbound init message of the part_003 revision: the layout is nested
under the `layout` field (`InitMessage<T>`), but inbound messages are still
duck-patched at the TOP level, so the raw wire message may also carry
top-level `plateSpots`/`shapes` fields. -/
structure RawInitMessage where
  content : JVal
  layout : Option Layout
  plateSpots : Option (List Circle)
  shapes : Option (List Circle)

/-- The duck-typing normalization of `_handleParentMessage` (part_003),
identical text to the part_001 one: it copies the TOP-LEVEL `shapes` field
to the TOP-LEVEL `plateSpots` field; the nested `layout` field is not
touched. -/
def normalizeDuckMessage (m : RawInitMessage) : RawInitMessage :=
  if m.shapes.isSome && m.plateSpots.isNone then { m with plateSpots := m.shapes }
  else m

/-- The part of the part_003 instance state relevant to message ingress. -/
structure SdkState where
  initMessage : Option RawInitMessage

/-- Field values at construction. -/
def initialState : SdkState :=
  { initMessage := none }

/-- The `init` branch of `_handleParentMessage` (part_003): a second init
message is dropped with a `console.error`; a first one is duck-normalized,
has the `contentOverride` option applied, and is stored by
`_receiveInitMessage` (which only stores it and fires the init callback). -/
def handleInitMessage (contentOverride : Option JVal) (st : SdkState)
    (m : RawInitMessage) : SdkState :=
  if st.initMessage.isSome then st
  else
    let duck := normalizeDuckMessage m
    let withContent :=
      match contentOverride with
      | some c => { duck with content := c }
      | none => duck
    { st with initMessage := some withContent }

/-- `getLayout` (part_003): `_requireInitMessage` then return
`this._initMessage.layout` (which is `undefined`, modelled `none`, when the
accepted message had no nested `layout` field). -/
def getLayout (st : SdkState) : Except String (Option Layout) :=
  match st.initMessage with
  | none => .error "The SDK has not initialised yet."
  | some m => .ok m.layout

end SdkV3

/-!
Concrete fixtures.

Small concrete values used to instantiate the theorems below.
-/

/-- A concrete plate spot. -/
def mockCircle : Circle :=
  { type := "circle", id := 0, x := 10, y := 10, radius := 5, borderWidth := 1,
    rotationDegrees := 0 }

/-- A concrete layout with one plate spot. -/
def mockLayout : Layout :=
  { plateSpots := [mockCircle], widthPx := 800, heightPx := 600,
    resolutionPixelsPerCm := 12, contentAreas := [] }

/-- A concrete init message for the src/src/index.ts revision. -/
def mockInitV1 : SdkV1.InitMessage :=
  { content := JVal.jnull, layout := mockLayout, table := "1", version := "1.0" }

/-- A concrete init message for the part_002 revision. -/
def mockInitV2 : SdkV2.InitMessage :=
  { content := JVal.jnull, layout := mockLayout, table := "1", version := "1.0",
    sessionId := 1, requiredWidth := none, requiredHeight := none }

/-- A src/src/index.ts state in which `mockInitV1` has been accepted. -/
def stV1WithInit : SdkV1.SdkState :=
  { SdkV1.initialState with initMessage := some mockInitV1 }

/-- A part_002 state in which `mockInitV2` has been accepted. -/
def stV2WithInit : SdkV2.SdkState :=
  { SdkV2.initialState with initMessage := some mockInitV2 }

/-!
Helper lemmas.
-/

/-- `_finishInitialisation` only assigns `_content`: every other field of
the state is preserved, in both the validation-failure and the success
branch. -/
theorem finishInitialisation_fields (opts : SdkV1.Options) (c : JVal)
    (st : SdkV1.SdkState) :
    ((SdkV1.finishInitialisation opts c st).1).initMessage = st.initMessage ∧
    ((SdkV1.finishInitialisation opts c st).1).savedState = st.savedState ∧
    ((SdkV1.finishInitialisation opts c st).1).sentReadyEvent = st.sentReadyEvent ∧
    ((SdkV1.finishInitialisation opts c st).1).sent = st.sent := by
  unfold SdkV1.finishInitialisation
  cases validateContent opts.contentSchema c <;> simp

/-- Once an init message is stored, `_handleParentMessage` never changes the
state and never throws, whatever the message. -/
theorem handleParentMessage_fixed (mode : RunningMode) (opts : SdkV1.Options)
    (st : SdkV1.SdkState) (msg : SdkV1.Message) (h : st.initMessage.isSome) :
    SdkV1.handleParentMessage mode opts st msg = (st, none) := by
  cases msg <;> simp [SdkV1.handleParentMessage, h]

/-- Once an init message is stored, delivering any list of further messages
leaves the state unchanged. -/
theorem handleAll_fixed (mode : RunningMode) (opts : SdkV1.Options)
    (st : SdkV1.SdkState) (msgs : List SdkV1.Message)
    (h : st.initMessage.isSome) :
    SdkV1.handleAll mode opts st msgs = st := by
  induction msgs with
  | nil => rfl
  | cons m rest ih =>
    unfold SdkV1.handleAll
    rw [handleParentMessage_fixed mode opts st m h]
    exact ih

/-- Processing a first init message stores exactly that message. -/
theorem receiveInitMessage_stores (mode : RunningMode) (opts : SdkV1.Options)
    (m : SdkV1.InitMessage) (st : SdkV1.SdkState) (h : st.initMessage = none) :
    ((SdkV1.receiveInitMessage mode opts m st).1).initMessage = some m := by
  unfold SdkV1.receiveInitMessage
  rw [h]
  by_cases hc : truthy m.content
  · simp only [Option.isSome_none, Bool.false_eq_true, if_false, hc, if_true]
    exact (finishInitialisation_fields opts m.content { st with initMessage := some m }).1
  · simp [hc]

/-- `notifyAppIsReady` is a no-op (and does not throw) once the ready event
has been recorded and an init message exists. -/
theorem notifyAppIsReady_fixed (mode : RunningMode) (st : SdkV1.SdkState)
    (h1 : st.initMessage.isSome) (h2 : st.sentReadyEvent = true) :
    SdkV1.notifyAppIsReady mode st = (st, none) := by
  obtain ⟨m, hm⟩ := Option.isSome_iff_exists.mp h1
  simp [SdkV1.notifyAppIsReady, hm, h2]

/-- The first effective call to `notifyAppIsReady`: no throw, the ready
event gets recorded, the init message is untouched, and at most one `ready`
announcement is appended to the outgoing trace. -/
theorem notifyAppIsReady_first (mode : RunningMode) (st : SdkV1.SdkState)
    (h1 : st.initMessage.isSome) :
    ((SdkV1.notifyAppIsReady mode st).1).sentReadyEvent = true ∧
    ((SdkV1.notifyAppIsReady mode st).1).initMessage = st.initMessage ∧
    readyCount ((SdkV1.notifyAppIsReady mode st).1).sent ≤ readyCount st.sent + 1 ∧
    (SdkV1.notifyAppIsReady mode st).2 = none := by
  obtain ⟨m, hm⟩ := Option.isSome_iff_exists.mp h1
  by_cases hr : st.sentReadyEvent <;> by_cases hmode : mode = RunningMode.HOSTED <;>
    simp [SdkV1.notifyAppIsReady, hm, hr, hmode, readyCount, List.count_append]

/-- After the first call, every further call to `notifyAppIsReady` leaves
the state exactly where the first call left it. -/
theorem notifyIter_stable (mode : RunningMode) (st : SdkV1.SdkState)
    (h1 : st.initMessage.isSome) :
    ∀ n, 1 ≤ n →
      SdkV1.notifyIter mode st n = (SdkV1.notifyAppIsReady mode st).1 := by
  intro n hn
  induction n with
  | zero => omega
  | succ k ih =>
    by_cases hk : 1 ≤ k
    · have hfix := notifyAppIsReady_fixed mode (SdkV1.notifyAppIsReady mode st).1
        (by rw [(notifyAppIsReady_first mode st h1).2.1]; exact h1)
        (notifyAppIsReady_first mode st h1).1
      show (SdkV1.notifyAppIsReady mode (SdkV1.notifyIter mode st k)).1 = _
      rw [ih hk, hfix]
    · have hk0 : k = 0 := by omega
      subst hk0
      rfl

/-!
Claims.
-/

/-- C2: each of `getContent`, `getLayout`, `getTableLabel` and
`getSavedState` throws (`The SDK has not initialised yet.`) before any init
message has been accepted, and succeeds afterwards, returning the value
determined by the stored state.  The accessors are pure reads — they take a
state and return a value without modifying anything — so repeated calls on
the same state return the same value. -/
theorem c2_accessors_require_init (st : SdkV2.SdkState) :
    (st.initMessage = none →
      SdkV2.getContent st = .error "The SDK has not initialised yet." ∧
      SdkV2.getLayout st = .error "The SDK has not initialised yet." ∧
      SdkV2.getTableLabel st = .error "The SDK has not initialised yet." ∧
      SdkV2.getSavedState st = .error "The SDK has not initialised yet.") ∧
    (∀ m, st.initMessage = some m →
      SdkV2.getContent st = .ok st.content ∧
      SdkV2.getLayout st = .ok m.layout ∧
      SdkV2.getTableLabel st = .ok m.table ∧
      SdkV2.getSavedState st = .ok st.savedState) := by
  constructor
  · intro h
    simp [SdkV2.getContent, SdkV2.getLayout, SdkV2.getTableLabel,
      SdkV2.getSavedState, h]
  · intro m h
    simp [SdkV2.getContent, SdkV2.getLayout, SdkV2.getTableLabel,
      SdkV2.getSavedState, h]

/-- Witness for C2 at concrete states: the fresh state throws, the
initialised state answers. -/
theorem c2_accessors_require_init_witness :
    SdkV2.getTableLabel SdkV2.initialState = .error "The SDK has not initialised yet." ∧
    SdkV2.getLayout stV2WithInit = .ok mockLayout :=
  ⟨((c2_accessors_require_init SdkV2.initialState).1 rfl).2.2.1,
   (((c2_accessors_require_init stV2WithInit).2 mockInitV2 rfl).2).1⟩

/-- C3: `notifyAppIsReady` throws before an init message exists; once one
exists, no call throws, every call after the first leaves the state exactly
as the first call left it, and over any number of calls at most one `ready`
announcement is added to the outgoing message trace. -/
theorem c3_notify_ready_idempotent (mode : RunningMode) (st : SdkV1.SdkState) :
    (st.initMessage = none →
      SdkV1.notifyAppIsReady mode st =
        (st, some "Illegal call to notifyAppIsReady() before init callback has fired.")) ∧
    (st.initMessage.isSome →
      (SdkV1.notifyAppIsReady mode st).2 = none ∧
      (∀ n, 1 ≤ n →
        SdkV1.notifyIter mode st n = (SdkV1.notifyAppIsReady mode st).1) ∧
      (∀ n, readyCount (SdkV1.notifyIter mode st n).sent ≤ readyCount st.sent + 1)) := by
  constructor
  · intro h
    simp [SdkV1.notifyAppIsReady, h]
  · intro h1
    refine ⟨(notifyAppIsReady_first mode st h1).2.2.2, notifyIter_stable mode st h1, ?_⟩
    intro n
    match n with
    | 0 => exact Nat.le_succ_of_le (Nat.le_refl _)
    | k + 1 =>
      rw [notifyIter_stable mode st h1 (k + 1) (Nat.succ_le_succ (Nat.zero_le k))]
      exact (notifyAppIsReady_first mode st h1).2.2.1

/-- Witness for C3: the fresh state throws; three calls on an initialised
state add at most one `ready` announcement. -/
theorem c3_notify_ready_idempotent_witness :
    SdkV1.notifyAppIsReady RunningMode.HOSTED SdkV1.initialState =
      (SdkV1.initialState,
        some "Illegal call to notifyAppIsReady() before init callback has fired.") ∧
    readyCount (SdkV1.notifyIter RunningMode.HOSTED stV1WithInit 3).sent ≤
      readyCount stV1WithInit.sent + 1 :=
  ⟨(c3_notify_ready_idempotent RunningMode.HOSTED SdkV1.initialState).1 rfl,
   ((c3_notify_ready_idempotent RunningMode.HOSTED stV1WithInit).2 rfl).2.2 3⟩

/-- C4: once an instance exists (the `INSTANCE_CREATED` flag is set by a
successful construction), a second construction throws in `HOSTED` and in
`DEVELOPMENT` mode, while in `UNIT_TESTS` mode construction never throws,
whatever the flag — so any number of instances can be constructed. -/
theorem c4_instance_guard (mode : RunningMode) (goodBrowser : Bool) :
    ((mode = RunningMode.HOSTED ∨ mode = RunningMode.DEVELOPMENT) →
      (SdkV1.construct mode goodBrowser false).2 = none →
      ((SdkV1.construct mode goodBrowser true).2).isSome = true) ∧
    (∀ flag : Bool,
      SdkV1.construct RunningMode.UNIT_TESTS goodBrowser flag = (true, none)) := by
  constructor
  · intro hmode _
    rcases hmode with h | h <;> subst h <;> cases goodBrowser <;>
      simp [SdkV1.construct]
  · intro flag
    cases flag <;> rfl

/-- Witness for C4: a second hosted construction throws; a unit-test
construction with the flag already set succeeds. -/
theorem c4_instance_guard_witness :
    ((SdkV1.construct RunningMode.HOSTED true true).2).isSome = true ∧
    SdkV1.construct RunningMode.UNIT_TESTS true true = (true, none) :=
  ⟨(c4_instance_guard RunningMode.HOSTED true).1 (Or.inl rfl) rfl,
   (c4_instance_guard RunningMode.HOSTED true).2 true⟩

/-- An options fixture with an empty content schema and no callbacks. -/
def emptySchemaOpts : SdkV1.Options :=
  { contentSchema := [], saveStateCallback := none, fullscreen := false }

/-- C1: out of any sequence of init messages delivered to one instance, only
the first is stored; once it is stored, delivering any further message —
in particular any further init message — returns the state unchanged with no
exception, and `getLayout`/`getContent` keep answering from the first
message. -/
theorem c1_first_init_wins (mode : RunningMode) (opts : SdkV1.Options)
    (m1 : SdkV1.InitMessage) (rest : List SdkV1.Message) (st0 : SdkV1.SdkState)
    (h0 : st0.initMessage = none) :
    ((SdkV1.handleParentMessage mode opts st0 (SdkV1.Message.init m1)).1).initMessage
        = some m1 ∧
    (∀ msg, SdkV1.handleParentMessage mode opts
        (SdkV1.handleParentMessage mode opts st0 (SdkV1.Message.init m1)).1 msg =
      ((SdkV1.handleParentMessage mode opts st0 (SdkV1.Message.init m1)).1, none)) ∧
    SdkV1.handleAll mode opts
        (SdkV1.handleParentMessage mode opts st0 (SdkV1.Message.init m1)).1 rest =
      (SdkV1.handleParentMessage mode opts st0 (SdkV1.Message.init m1)).1 ∧
    SdkV1.getLayout (SdkV1.handleAll mode opts
        (SdkV1.handleParentMessage mode opts st0 (SdkV1.Message.init m1)).1 rest) =
      .ok m1.layout ∧
    SdkV1.getContent (SdkV1.handleAll mode opts
        (SdkV1.handleParentMessage mode opts st0 (SdkV1.Message.init m1)).1 rest) =
      SdkV1.getContent (SdkV1.handleParentMessage mode opts st0 (SdkV1.Message.init m1)).1 := by
  have hst1 : ((SdkV1.handleParentMessage mode opts st0 (SdkV1.Message.init m1)).1).initMessage
      = some m1 := by
    simp only [SdkV1.handleParentMessage, h0, Option.isSome_none, Bool.false_eq_true,
      if_false]
    exact receiveInitMessage_stores mode opts m1 st0 h0
  have hsome : ((SdkV1.handleParentMessage mode opts st0 (SdkV1.Message.init m1)).1).initMessage.isSome := by
    rw [hst1]
    rfl
  have hfixall := handleAll_fixed mode opts _ rest hsome
  refine ⟨hst1, ?_, hfixall, ?_, ?_⟩
  · intro msg
    exact handleParentMessage_fixed mode opts _ msg hsome
  · rw [hfixall]
    simp [SdkV1.getLayout, hst1]
  · rw [hfixall]

/-- Witness for C1: a second copy of the mock init message is dropped with
no state change and no exception. -/
theorem c1_first_init_wins_witness :
    ((SdkV1.handleParentMessage RunningMode.HOSTED emptySchemaOpts SdkV1.initialState
        (SdkV1.Message.init mockInitV1)).1).initMessage = some mockInitV1 ∧
    SdkV1.handleAll RunningMode.HOSTED emptySchemaOpts
        (SdkV1.handleParentMessage RunningMode.HOSTED emptySchemaOpts SdkV1.initialState
          (SdkV1.Message.init mockInitV1)).1 [SdkV1.Message.init mockInitV1] =
      (SdkV1.handleParentMessage RunningMode.HOSTED emptySchemaOpts SdkV1.initialState
        (SdkV1.Message.init mockInitV1)).1 :=
  ⟨(c1_first_init_wins RunningMode.HOSTED emptySchemaOpts mockInitV1
      [SdkV1.Message.init mockInitV1] SdkV1.initialState rfl).1,
   (c1_first_init_wins RunningMode.HOSTED emptySchemaOpts mockInitV1
      [SdkV1.Message.init mockInitV1] SdkV1.initialState rfl).2.2.1⟩

/-- C10: accepting an init message with falsy content stores the message and
issues the background default-content fetch without setting `_content`; from
that point the accessor precondition (an init message exists) is satisfied,
so `getContent()` succeeds and returns the still-unset content (`undefined`,
modelled `none`) instead of throwing, and a failed or invalid fetch changes
nothing. -/
theorem c10_accessors_before_content (mode : RunningMode) (opts : SdkV1.Options)
    (m : SdkV1.InitMessage) (st0 : SdkV1.SdkState)
    (h0 : st0.initMessage = none) (hc0 : st0.content = none)
    (hempty : truthy m.content = false) :
    SdkV1.handleParentMessage mode opts st0 (SdkV1.Message.init m) =
      ({ st0 with initMessage := some m }, none) ∧
    SdkV1.getContent { st0 with initMessage := some m } = .ok none ∧
    SdkV1.getLayout { st0 with initMessage := some m } = .ok m.layout ∧
    SdkV1.loadDefaultContentResult opts { st0 with initMessage := some m } none =
      ({ st0 with initMessage := some m }, none) := by
  refine ⟨?_, ?_, ?_, rfl⟩
  · simp [SdkV1.handleParentMessage, SdkV1.receiveInitMessage, h0, hempty]
  · simp [SdkV1.getContent, hc0]
  · simp [SdkV1.getLayout]

/-- `_finishInitialisation` (part_002) only assigns `_content`: every other
field of the state is preserved. -/
theorem finishInitialisationV2_fields (opts : SdkV2.Options) (c : JVal)
    (st : SdkV2.SdkState) :
    (SdkV2.finishInitialisation opts c st).initMessage = st.initMessage ∧
    (SdkV2.finishInitialisation opts c st).savedState = st.savedState ∧
    (SdkV2.finishInitialisation opts c st).sent = st.sent := by
  unfold SdkV2.finishInitialisation
  cases opts.contentSchema <;> simp

/-- `_restoreState` never touches the stored init message. -/
theorem restoreState_initMessage (st : SdkV2.SdkState) (now : Int)
    (slot : Option SdkV2.SlotValue) :
    ((SdkV2.restoreState st now slot).1).initMessage = st.initMessage := by
  unfold SdkV2.restoreState
  rcases slot with _ | v
  · rfl
  · rcases v with _ | save
    · rfl
    · rcases hm : st.initMessage with _ | m
      · simp only [hm]
      · simp only [hm]
        split
        · exact hm
        · split
          · exact hm
          · split
            · exact hm
            · rfl

/-- Case analysis of `_restoreState` relative to the current init message:
an empty slot does nothing; a malformed slot is wiped; a record is restored
exactly when its `appVersion` and `sessionId` match the current init message
and it is at most `MAX_SAVED_STATE_SECONDS` old, and is wiped otherwise. -/
theorem restoreState_spec (st : SdkV2.SdkState) (m : SdkV2.InitMessage)
    (now : Int) (hinit : st.initMessage = some m) :
    SdkV2.restoreState st now none = (st, none) ∧
    SdkV2.restoreState st now (some SdkV2.SlotValue.malformed) = (st, none) ∧
    (∀ save : SdkV2.StoredState,
      (save.appVersion = m.version → save.sessionId = m.sessionId →
        now - save.timestamp ≤ MAX_SAVED_STATE_SECONDS * 1000 →
        SdkV2.restoreState st now (some (SdkV2.SlotValue.json save)) =
          ({ st with savedState := some save.state },
            some (SdkV2.SlotValue.json save))) ∧
      ((save.appVersion ≠ m.version ∨ save.sessionId ≠ m.sessionId ∨
          now - save.timestamp > MAX_SAVED_STATE_SECONDS * 1000) →
        SdkV2.restoreState st now (some (SdkV2.SlotValue.json save)) = (st, none))) := by
  refine ⟨rfl, rfl, ?_⟩
  intro save
  constructor
  · intro h1 h2 h3
    simp [SdkV2.restoreState, hinit, h1, h2, not_lt.mpr h3]
  · intro hfail
    by_cases h1 : save.appVersion = m.version
    · by_cases h2 : save.sessionId = m.sessionId
      · have h3 : now - save.timestamp > MAX_SAVED_STATE_SECONDS * 1000 := by
          rcases hfail with h | h | h
          · exact absurd h1 h
          · exact absurd h2 h
          · exact h
        simp [SdkV2.restoreState, hinit, h1, h2, h3]
      · simp [SdkV2.restoreState, hinit, h1, h2]
    · simp [SdkV2.restoreState, hinit, h1]

/-- `_receiveInitMessage` (part_002) on a fresh instance: the message is
stored, the saved state and the slot are whatever `_restoreState` produced,
and nothing is thrown. -/
theorem receiveInitMessageV2_fresh (mode : RunningMode) (opts : SdkV2.Options)
    (m : SdkV2.InitMessage) (now : Int) (st0 : SdkV2.SdkState)
    (slot : Option SdkV2.SlotValue) (h0 : st0.initMessage = none) :
    ((SdkV2.receiveInitMessage mode opts m now st0 slot).1).initMessage = some m ∧
    ((SdkV2.receiveInitMessage mode opts m now st0 slot).1).savedState =
      ((SdkV2.restoreState { st0 with initMessage := some m } now slot).1).savedState ∧
    (SdkV2.receiveInitMessage mode opts m now st0 slot).2.1 =
      (SdkV2.restoreState { st0 with initMessage := some m } now slot).2 ∧
    (SdkV2.receiveInitMessage mode opts m now st0 slot).2.2 = none := by
  unfold SdkV2.receiveInitMessage
  rw [h0]
  simp only [Option.isSome_none, Bool.false_eq_true, if_false]
  split
  · refine ⟨?_, ?_, rfl, rfl⟩
    · rw [(finishInitialisationV2_fields opts m.content _).1,
        restoreState_initMessage]
    · exact (finishInitialisationV2_fields opts m.content _).2.1
  · refine ⟨?_, rfl, rfl, rfl⟩
    rw [restoreState_initMessage]

/-- C5: with a configured save callback returning `S`, `requestAppClose`
writes `S` stamped with the close time and the current app version and
session id; a new instance accepting an init message with the same version
and session id at most 600 seconds later restores `S` (visible through
`getSavedState`) and keeps the slot, while a changed version, a changed
session id, or an age over 600 seconds leaves the saved state empty and
clears the slot. -/
theorem c5_session_round_trip (mode1 mode2 : RunningMode) (opts : SdkV2.Options)
    (S : JVal) (m1 m2 : SdkV2.InitMessage) (st : SdkV2.SdkState)
    (t1 t2 : Int) (slot0 : Option SdkV2.SlotValue)
    (hcb : opts.saveStateCallback = some S) (hinit : st.initMessage = some m1)
    (st1 : SdkV2.SdkState) (slot1 : Option SdkV2.SlotValue) (e1 : Option String)
    (hclose : SdkV2.requestAppClose mode1 opts st t1 slot0 = (st1, slot1, e1))
    (st2 : SdkV2.SdkState) (slot2 : Option SdkV2.SlotValue) (e2 : Option String)
    (hreopen : SdkV2.receiveInitMessage mode2 opts m2 t2 SdkV2.initialState slot1 =
      (st2, slot2, e2)) :
    e1 = none ∧
    slot1 = some (SdkV2.SlotValue.json
      { state := S, timestamp := t1, appVersion := m1.version,
        sessionId := m1.sessionId }) ∧
    e2 = none ∧
    (m2.version = m1.version → m2.sessionId = m1.sessionId →
      t2 - t1 ≤ MAX_SAVED_STATE_SECONDS * 1000 →
      SdkV2.getSavedState st2 = .ok (some S) ∧ slot2 = slot1) ∧
    ((m2.version ≠ m1.version ∨ m2.sessionId ≠ m1.sessionId ∨
        t2 - t1 > MAX_SAVED_STATE_SECONDS * 1000) →
      SdkV2.getSavedState st2 = .ok none ∧ slot2 = none) := by
  have hstA : (if mode1 = RunningMode.HOSTED then
      { st with sent := st.sent ++ [OutMsg.close] } else st).initMessage = some m1 := by
    split <;> simp [hinit]
  have hsave : SdkV2.saveState opts
      (if mode1 = RunningMode.HOSTED then
        { st with sent := st.sent ++ [OutMsg.close] } else st) t1 slot0 =
      (some (SdkV2.SlotValue.json
        { state := S, timestamp := t1, appVersion := m1.version,
          sessionId := m1.sessionId }), none) := by
    simp only [SdkV2.saveState, hcb, hstA]
  have hclose2 : SdkV2.requestAppClose mode1 opts st t1 slot0 =
      ((if mode1 = RunningMode.HOSTED then
          { st with sent := st.sent ++ [OutMsg.close] } else st),
        some (SdkV2.SlotValue.json
          { state := S, timestamp := t1, appVersion := m1.version,
            sessionId := m1.sessionId }), none) := by
    unfold SdkV2.requestAppClose
    rw [hcb]
    simp [hsave]
  rw [hclose2] at hclose
  injection hclose with hA hBC
  injection hBC with hB hC
  subst hA
  subst hB
  subst hC
  have hfresh := receiveInitMessageV2_fresh mode2 opts m2 t2 SdkV2.initialState
    (some (SdkV2.SlotValue.json
      { state := S, timestamp := t1, appVersion := m1.version,
        sessionId := m1.sessionId })) rfl
  rw [hreopen] at hfresh
  have hspec := restoreState_spec { SdkV2.initialState with initMessage := some m2 } m2 t2 rfl
  have hfresh1 : st2.initMessage = some m2 := hfresh.1
  have hfresh2 : st2.savedState =
      ((SdkV2.restoreState { SdkV2.initialState with initMessage := some m2 } t2
        (some (SdkV2.SlotValue.json
          { state := S, timestamp := t1, appVersion := m1.version,
            sessionId := m1.sessionId }))).1).savedState := hfresh.2.1
  have hfresh3 : slot2 =
      (SdkV2.restoreState { SdkV2.initialState with initMessage := some m2 } t2
        (some (SdkV2.SlotValue.json
          { state := S, timestamp := t1, appVersion := m1.version,
            sessionId := m1.sessionId }))).2 := hfresh.2.2.1
  have hfresh4 : e2 = none := hfresh.2.2.2
  refine ⟨rfl, rfl, hfresh4, ?_, ?_⟩
  · intro h1 h2 h3
    have hrestore := (hspec.2.2
      { state := S, timestamp := t1, appVersion := m1.version,
        sessionId := m1.sessionId }).1 h1.symm h2.symm h3
    constructor
    · have hsv : st2.savedState = some S := by
        rw [hfresh2, hrestore]
      simp [SdkV2.getSavedState, hfresh1, hsv]
    · rw [hfresh3, hrestore]
  · intro hfail
    have hrestore := (hspec.2.2
      { state := S, timestamp := t1, appVersion := m1.version,
        sessionId := m1.sessionId }).2 (by
      rcases hfail with h | h | h
      · exact Or.inl (fun hh => h hh.symm)
      · exact Or.inr (Or.inl (fun hh => h hh.symm))
      · exact Or.inr (Or.inr h))
    constructor
    · have hsv : st2.savedState = none := by
        rw [hfresh2, hrestore]
        rfl
      simp [SdkV2.getSavedState, hfresh1, hsv]
    · rw [hfresh3, hrestore]

/-- A part_002 options fixture with a save callback returning the snapshot
string `"S"` and no content schema. -/
def saveOptsV2 : SdkV2.Options :=
  { contentSchema := none, saveStateCallback := some (JVal.jstr "S"),
    fullscreen := false }

/-- Witness for C5: a concrete close-then-reopen with matching version and
session id 500 seconds later restores the snapshot; with a changed app
version it wipes the slot. -/
theorem c5_session_round_trip_witness :
    (SdkV2.getSavedState (SdkV2.receiveInitMessage RunningMode.HOSTED saveOptsV2
        mockInitV2 500000 SdkV2.initialState
        (SdkV2.requestAppClose RunningMode.HOSTED saveOptsV2
          stV2WithInit 0 none).2.1).1) = .ok (some (JVal.jstr "S")) ∧
    (SdkV2.getSavedState (SdkV2.receiveInitMessage RunningMode.HOSTED saveOptsV2
        { mockInitV2 with version := "2.0" } 500000 SdkV2.initialState
        (SdkV2.requestAppClose RunningMode.HOSTED saveOptsV2
          stV2WithInit 0 none).2.1).1) = .ok none :=
  ⟨((c5_session_round_trip RunningMode.HOSTED RunningMode.HOSTED saveOptsV2
      (JVal.jstr "S") mockInitV2 mockInitV2 stV2WithInit 0 500000 none rfl rfl
      (SdkV2.requestAppClose RunningMode.HOSTED saveOptsV2 stV2WithInit 0 none).1
      (SdkV2.requestAppClose RunningMode.HOSTED saveOptsV2 stV2WithInit 0 none).2.1
      (SdkV2.requestAppClose RunningMode.HOSTED saveOptsV2 stV2WithInit 0 none).2.2
      rfl
      (SdkV2.receiveInitMessage RunningMode.HOSTED saveOptsV2 mockInitV2 500000
        SdkV2.initialState
        (SdkV2.requestAppClose RunningMode.HOSTED saveOptsV2 stV2WithInit 0 none).2.1).1
      (SdkV2.receiveInitMessage RunningMode.HOSTED saveOptsV2 mockInitV2 500000
        SdkV2.initialState
        (SdkV2.requestAppClose RunningMode.HOSTED saveOptsV2 stV2WithInit 0 none).2.1).2.1
      (SdkV2.receiveInitMessage RunningMode.HOSTED saveOptsV2 mockInitV2 500000
        SdkV2.initialState
        (SdkV2.requestAppClose RunningMode.HOSTED saveOptsV2 stV2WithInit 0 none).2.1).2.2
      rfl).2.2.2.1 rfl rfl (by decide)).1,
   ((c5_session_round_trip RunningMode.HOSTED RunningMode.HOSTED saveOptsV2
      (JVal.jstr "S") mockInitV2 { mockInitV2 with version := "2.0" } stV2WithInit
      0 500000 none rfl rfl
      (SdkV2.requestAppClose RunningMode.HOSTED saveOptsV2 stV2WithInit 0 none).1
      (SdkV2.requestAppClose RunningMode.HOSTED saveOptsV2 stV2WithInit 0 none).2.1
      (SdkV2.requestAppClose RunningMode.HOSTED saveOptsV2 stV2WithInit 0 none).2.2
      rfl
      (SdkV2.receiveInitMessage RunningMode.HOSTED saveOptsV2
        { mockInitV2 with version := "2.0" } 500000 SdkV2.initialState
        (SdkV2.requestAppClose RunningMode.HOSTED saveOptsV2 stV2WithInit 0 none).2.1).1
      (SdkV2.receiveInitMessage RunningMode.HOSTED saveOptsV2
        { mockInitV2 with version := "2.0" } 500000 SdkV2.initialState
        (SdkV2.requestAppClose RunningMode.HOSTED saveOptsV2 stV2WithInit 0 none).2.1).2.1
      (SdkV2.receiveInitMessage RunningMode.HOSTED saveOptsV2
        { mockInitV2 with version := "2.0" } 500000 SdkV2.initialState
        (SdkV2.requestAppClose RunningMode.HOSTED saveOptsV2 stV2WithInit 0 none).2.1).2.2
      rfl).2.2.2.2 (Or.inl (by decide))).1⟩

/-- A stored record written at time 0 by app version `"1.0"`, session 1
(matching `mockInitV2`). -/
def probeRecord : SdkV2.StoredState :=
  { state := JVal.jstr "S", timestamp := 0, appVersion := "1.0", sessionId := 1 }

/-- Counterexample for C6: a record whose age is exactly 600 seconds
(`now - timestamp = 600000` ms) is NOT under the 600-second ceiling, yet
`_restoreState` restores its snapshot and keeps the slot — the source wipes
only records *strictly older* than the ceiling
(`Date.now() - save.timestamp > MAX_SAVED_STATE_SECONDS * 1000`). -/
theorem c6_restore_validation_chain_counterexample :
    (SdkV2.restoreState stV2WithInit 600000
        (some (SdkV2.SlotValue.json probeRecord))).1.savedState =
      some (JVal.jstr "S") ∧
    (SdkV2.restoreState stV2WithInit 600000
        (some (SdkV2.SlotValue.json probeRecord))).2 =
      some (SdkV2.SlotValue.json probeRecord) ∧
    ¬ ((600000 : Int) - probeRecord.timestamp < MAX_SAVED_STATE_SECONDS * 1000) :=
  ⟨rfl, rfl, by decide⟩

/-- C6 (amended): `_restoreState` validates the stored record by the chain
(1) it must parse (malformed data is wiped), (2) its `appVersion` must equal
the current init message version, (3) its `sessionId` must equal the current
session id, (4) its age must be AT MOST 600 seconds (only strictly older
records are wiped as stale); on any failure the slot is cleared and the
saved state stays empty, no exception escapes (the embedding is total
because the source wraps the chain in `try`/`catch`), and only when all
checks pass does the snapshot become available. -/
theorem c6_restore_validation_chain (st : SdkV2.SdkState)
    (m : SdkV2.InitMessage) (now : Int) (slot : Option SdkV2.SlotValue)
    (hinit : st.initMessage = some m) (hsv : st.savedState = none) :
    (slot = some SdkV2.SlotValue.malformed →
      SdkV2.restoreState st now slot = (st, none) ∧
      ((SdkV2.restoreState st now slot).1).savedState = none) ∧
    (∀ save, slot = some (SdkV2.SlotValue.json save) →
      (save.appVersion ≠ m.version ∨ save.sessionId ≠ m.sessionId ∨
        now - save.timestamp > MAX_SAVED_STATE_SECONDS * 1000) →
      SdkV2.restoreState st now slot = (st, none) ∧
      ((SdkV2.restoreState st now slot).1).savedState = none) ∧
    (∀ save, slot = some (SdkV2.SlotValue.json save) →
      save.appVersion = m.version → save.sessionId = m.sessionId →
      now - save.timestamp ≤ MAX_SAVED_STATE_SECONDS * 1000 →
      SdkV2.restoreState st now slot =
        ({ st with savedState := some save.state }, slot)) := by
  have hspec := restoreState_spec st m now hinit
  refine ⟨?_, ?_, ?_⟩
  · intro hslot
    subst hslot
    exact ⟨hspec.2.1, by rw [hspec.2.1]; exact hsv⟩
  · intro save hslot hfail
    subst hslot
    have hr := (hspec.2.2 save).2 hfail
    exact ⟨hr, by rw [hr]; exact hsv⟩
  · intro save hslot h1 h2 h3
    subst hslot
    exact (hspec.2.2 save).1 h1 h2 h3

/-- Witness for C6: the fresh record is restored; a malformed slot is wiped
leaving the saved state empty. -/
theorem c6_restore_validation_chain_witness :
    SdkV2.restoreState stV2WithInit 1000 (some (SdkV2.SlotValue.json probeRecord)) =
      ({ stV2WithInit with savedState := some (JVal.jstr "S") },
        some (SdkV2.SlotValue.json probeRecord)) ∧
    SdkV2.restoreState stV2WithInit 1000 (some SdkV2.SlotValue.malformed) =
      (stV2WithInit, none) :=
  ⟨(c6_restore_validation_chain stV2WithInit mockInitV2 1000
      (some (SdkV2.SlotValue.json probeRecord)) rfl rfl).2.2 probeRecord rfl rfl rfl
      (by decide),
   ((c6_restore_validation_chain stV2WithInit mockInitV2 1000
      (some SdkV2.SlotValue.malformed) rfl rfl).1 rfl).1⟩

/-- A legacy wire message of the part_003 revision: layout data under the
old top-level `shapes` name, no `plateSpots`, no nested `layout`. -/
def legacyShapesMessage : SdkV3.RawInitMessage :=
  { content := JVal.jnull, layout := none, plateSpots := none,
    shapes := some [mockCircle] }

/-- A modern wire message of the part_003 revision carrying the same plate
spots under `layout.plateSpots`. -/
def directPlateSpotsMessage : SdkV3.RawInitMessage :=
  { content := JVal.jnull, layout := some mockLayout, plateSpots := none,
    shapes := none }

/-- Counterexample for C7: in the revision that has both `getLayout()` and
the `shapes` normalization (part_003), an accepted init message carrying its
plate spots under the legacy `shapes` field leaves `getLayout()` with no
layout at all — the normalization writes the TOP-LEVEL `plateSpots` field of
the message, which `getLayout()` (returning the nested
`_initMessage.layout`) never reads — whereas the same data delivered under
`layout.plateSpots` is exposed. -/
theorem c7_shapes_normalization_counterexample :
    SdkV3.getLayout (SdkV3.handleInitMessage none SdkV3.initialState
        legacyShapesMessage) = .ok none ∧
    ((SdkV3.handleInitMessage none SdkV3.initialState
        legacyShapesMessage).initMessage).map SdkV3.RawInitMessage.plateSpots =
      some (some [mockCircle]) ∧
    SdkV3.getLayout (SdkV3.handleInitMessage none SdkV3.initialState
        directPlateSpotsMessage) = .ok (some mockLayout) :=
  ⟨rfl, rfl, rfl⟩

/-- C7 (amended): the legacy `shapes` field is normalized once at message
ingress into the TOP-LEVEL `plateSpots` field of the stored message — the
location where the legacy message format (part_001, whose `SDKInitMessage`
carries the layout fields at the top level) keeps its plate spots — and that
field is then populated identically to a message that used `plateSpots`
directly; the nested `layout` field of the part_003 revision is never
touched by the normalization, so `getLayout().plateSpots` is NOT populated
from `shapes` there. -/
theorem c7_shapes_normalized_top_level (m : SdkLegacy.RawInitMessage)
    (s : List Circle) (st : SdkLegacy.SdkState)
    (hs : m.shapes = some s) (hp : m.plateSpots = none)
    (h0 : st.initMessage = none) :
    (SdkLegacy.handleInitMessage st m).initMessage =
      some (SdkLegacy.normalizeDuckMessage m) ∧
    (SdkLegacy.normalizeDuckMessage m).plateSpots = some s ∧
    (SdkLegacy.normalizeDuckMessage
      { m with plateSpots := some s, shapes := none }).plateSpots = some s ∧
    (∀ m3 : SdkV3.RawInitMessage,
      (SdkV3.normalizeDuckMessage m3).layout = m3.layout) := by
  refine ⟨?_, ?_, ?_, ?_⟩
  · simp [SdkLegacy.handleInitMessage, h0]
  · simp [SdkLegacy.normalizeDuckMessage, hs, hp]
  · simp [SdkLegacy.normalizeDuckMessage]
  · intro m3
    unfold SdkV3.normalizeDuckMessage
    split <;> rfl

/-- A legacy wire message of the part_001 revision (top-level layout
fields, plate spots under `shapes`). -/
def legacyTopLevelMessage : SdkLegacy.RawInitMessage :=
  { plateSpots := none, shapes := some [mockCircle], widthPx := 800,
    heightPx := 600, resolutionPixelsPerCm := 12, contentAreas := [] }

/-- Witness for C7: the concrete legacy message ends up stored with its
top-level `plateSpots` populated from `shapes`. -/
theorem c7_shapes_normalized_top_level_witness :
    (SdkLegacy.handleInitMessage { initMessage := none }
        legacyTopLevelMessage).initMessage =
      some (SdkLegacy.normalizeDuckMessage legacyTopLevelMessage) ∧
    (SdkLegacy.normalizeDuckMessage legacyTopLevelMessage).plateSpots =
      some [mockCircle] :=
  ⟨(c7_shapes_normalized_top_level legacyTopLevelMessage [mockCircle]
      { initMessage := none } rfl rfl rfl).1,
   (c7_shapes_normalized_top_level legacyTopLevelMessage [mockCircle]
      { initMessage := none } rfl rfl rfl).2.1⟩

/-- Counterexample for C8: in the part_002 revision, `requestAppClose`
called after construction but before any init message has been accepted, on
an instance with a configured save callback, throws — `_saveState` reads
`this._initMessage.version` while `_initMessage` is still undefined. -/
theorem c8_close_before_init_counterexample :
    (SdkV2.requestAppClose RunningMode.HOSTED saveOptsV2 SdkV2.initialState
        0 none).2.2 =
      some "TypeError: cannot read property version of undefined" := rfl

/-- `requestAppClose` with no configured save callback: close announcement
only, slot untouched, nothing thrown. -/
theorem requestAppClose_noCallback (mode : RunningMode) (opts : SdkV2.Options)
    (st : SdkV2.SdkState) (now : Int) (slot : Option SdkV2.SlotValue)
    (hcb : opts.saveStateCallback = none) :
    SdkV2.requestAppClose mode opts st now slot =
      ((if mode = RunningMode.HOSTED then
        { st with sent := st.sent ++ [OutMsg.close] } else st), slot, none) := by
  simp [SdkV2.requestAppClose, hcb]

/-- `requestAppClose` with a configured save callback after an init message
has been accepted: close announcement in hosted mode, stamped snapshot
written to the slot, nothing thrown. -/
theorem requestAppClose_saves (mode : RunningMode) (opts : SdkV2.Options)
    (st : SdkV2.SdkState) (now : Int) (slot : Option SdkV2.SlotValue)
    (S : JVal) (m : SdkV2.InitMessage)
    (hcb : opts.saveStateCallback = some S) (hm : st.initMessage = some m) :
    SdkV2.requestAppClose mode opts st now slot =
      ((if mode = RunningMode.HOSTED then
          { st with sent := st.sent ++ [OutMsg.close] } else st),
        some (SdkV2.SlotValue.json
          { state := S, timestamp := now, appVersion := m.version,
            sessionId := m.sessionId }), none) := by
  have hstA : (if mode = RunningMode.HOSTED then
      { st with sent := st.sent ++ [OutMsg.close] } else st).initMessage = some m := by
    split <;> simp [hm]
  have hsave : SdkV2.saveState opts
      (if mode = RunningMode.HOSTED then
        { st with sent := st.sent ++ [OutMsg.close] } else st) now slot =
      (some (SdkV2.SlotValue.json
        { state := S, timestamp := now, appVersion := m.version,
          sessionId := m.sessionId }), none) := by
    simp only [SdkV2.saveState, hcb, hstA]
  unfold SdkV2.requestAppClose
  rw [hcb]
  simp [hsave]

/-- C8 (amended): `requestAppClose` never throws — and in hosted mode sends
the `close` announcement, and triggers a session-state save whenever a save
callback is configured, regardless of mode — PROVIDED no save callback is
configured or an init message has already been accepted; with a configured
callback before any init message it throws (see the counterexample). -/
theorem c8_close_sends_and_saves (mode : RunningMode) (opts : SdkV2.Options)
    (st : SdkV2.SdkState) (now : Int) (slot : Option SdkV2.SlotValue)
    (h : opts.saveStateCallback = none ∨ st.initMessage.isSome = true) :
    (SdkV2.requestAppClose mode opts st now slot).2.2 = none ∧
    (mode = RunningMode.HOSTED →
      ((SdkV2.requestAppClose mode opts st now slot).1).sent =
        st.sent ++ [OutMsg.close]) ∧
    (mode ≠ RunningMode.HOSTED →
      (SdkV2.requestAppClose mode opts st now slot).1 = st) ∧
    (∀ S m, opts.saveStateCallback = some S → st.initMessage = some m →
      (SdkV2.requestAppClose mode opts st now slot).2.1 =
        some (SdkV2.SlotValue.json
          { state := S, timestamp := now, appVersion := m.version,
            sessionId := m.sessionId })) ∧
    (opts.saveStateCallback = none →
      (SdkV2.requestAppClose mode opts st now slot).2.1 = slot) := by
  rcases hcb : opts.saveStateCallback with _ | S
  · rw [requestAppClose_noCallback mode opts st now slot hcb]
    refine ⟨rfl, ?_, ?_, ?_, fun _ => rfl⟩
    · intro hm
      simp [hm]
    · intro hm
      simp [hm]
    · intro S m hS _
      exact Option.noConfusion hS
  · have hsome : st.initMessage.isSome = true := by
      rcases h with h | h
      · rw [hcb] at h
        exact Option.noConfusion h
      · exact h
    obtain ⟨m, hm⟩ := Option.isSome_iff_exists.mp hsome
    rw [requestAppClose_saves mode opts st now slot S m hcb hm]
    refine ⟨rfl, ?_, ?_, ?_, ?_⟩
    · intro hmode
      simp [hmode]
    · intro hmode
      simp [hmode]
    · intro S2 m2 hS2 hm2
      rw [hm] at hm2
      cases hS2
      cases hm2
      rfl
    · intro hnone
      exact Option.noConfusion hnone

/-- Witness for C8: a concrete hosted close after the mock init message
sends `close` and writes the stamped snapshot, with nothing thrown. -/
theorem c8_close_sends_and_saves_witness :
    (SdkV2.requestAppClose RunningMode.HOSTED saveOptsV2 stV2WithInit 5 none).2.2 =
      none ∧
    (SdkV2.requestAppClose RunningMode.HOSTED saveOptsV2 stV2WithInit 5 none).2.1 =
      some (SdkV2.SlotValue.json
        { state := JVal.jstr "S", timestamp := 5, appVersion := "1.0",
          sessionId := 1 }) :=
  ⟨(c8_close_sends_and_saves RunningMode.HOSTED saveOptsV2 stV2WithInit 5 none
      (Or.inr rfl)).1,
   (c8_close_sends_and_saves RunningMode.HOSTED saveOptsV2 stV2WithInit 5 none
      (Or.inr rfl)).2.2.2.1 (JVal.jstr "S") mockInitV2 rfl rfl⟩

/-- A one-field image schema. -/
def imageSchema : List (String × SchemaItem) :=
  [("pic", { type := "image", itemsType := none })]

/-- Options carrying `imageSchema`. -/
def badContentOpts : SdkV1.Options :=
  { contentSchema := imageSchema, saveStateCallback := none, fullscreen := false }

/-- An init message whose content object lacks the schema key `pic`. -/
def badInitMessage : SdkV1.InitMessage :=
  { content := JVal.jobj [("other", JVal.jstr "x")], layout := mockLayout,
    table := "1", version := "1.0" }

/-- Counterexample for C9: a first init message whose (truthy) content
violates the content schema makes `validateContent` throw INSIDE
`_handleParentMessage` — there is no `try`/`catch` on that path, so the
exception escapes the host-facing message handler. -/
theorem c9_message_loop_counterexample :
    (SdkV1.handleParentMessage RunningMode.HOSTED badContentOpts
        SdkV1.initialState (SdkV1.Message.init badInitMessage)).2 =
      some "Schema contains item pic that is missing from the content." := rfl

/-- C9 (amended): the host-facing message handler throws EXACTLY when a
first init message with truthy content fails content-schema validation; all
other inbound-message anomalies (duplicate init in any mode, falsy content,
`interactions`/`navigate`/unknown events) are logged and dropped or lead to
a degraded state without any exception; besides that, the only intentionally
fatal error remains the development-mode platform-capability check in the
constructor. -/
theorem c9_handler_throws_only_on_validation (mode : RunningMode)
    (opts : SdkV1.Options) (st : SdkV1.SdkState) (msg : SdkV1.Message) :
    ((SdkV1.handleParentMessage mode opts st msg).2 ≠ none ↔
      ∃ m err, msg = SdkV1.Message.init m ∧ st.initMessage = none ∧
        truthy m.content = true ∧
        validateContent opts.contentSchema m.content = .error err) ∧
    (∀ flag : Bool,
      (SdkV1.construct RunningMode.DEVELOPMENT false flag).2 = some "Bad browser") := by
  constructor
  · constructor
    · intro hne
      cases msg with
      | init m =>
        rcases h0 : st.initMessage with _ | m0
        · simp only [SdkV1.handleParentMessage, SdkV1.receiveInitMessage, h0,
            Option.isSome_none, Bool.false_eq_true, if_false] at hne
          rcases hc : truthy m.content with _ | _
          · rw [hc] at hne
            simp at hne
          · rw [hc] at hne
            simp only [if_true] at hne
            unfold SdkV1.finishInitialisation at hne
            cases hv : validateContent opts.contentSchema m.content with
            | error err =>
              exact ⟨m, err, rfl, rfl, hc, hv⟩
            | ok u =>
              rw [hv] at hne
              simp at hne
        · simp [SdkV1.handleParentMessage, h0] at hne
      | interactions => simp [SdkV1.handleParentMessage] at hne
      | navigate b => simp [SdkV1.handleParentMessage] at hne
      | other e => simp [SdkV1.handleParentMessage] at hne
    · rintro ⟨m, err, rfl, h0, hc, hv⟩
      simp only [SdkV1.handleParentMessage, SdkV1.receiveInitMessage, h0,
        Option.isSome_none, Bool.false_eq_true, if_false, hc, if_true]
      unfold SdkV1.finishInitialisation
      rw [hv]
      simp
  · intro flag
    rfl

/-- Witness for C9: the concrete schema-violating init message makes the
handler throw; the development-mode platform check is fatal. -/
theorem c9_handler_throws_only_on_validation_witness :
    (SdkV1.handleParentMessage RunningMode.HOSTED badContentOpts
        SdkV1.initialState (SdkV1.Message.init badInitMessage)).2 ≠ none ∧
    (SdkV1.construct RunningMode.DEVELOPMENT false false).2 = some "Bad browser" :=
  ⟨(c9_handler_throws_only_on_validation RunningMode.HOSTED badContentOpts
      SdkV1.initialState (SdkV1.Message.init badInitMessage)).1.mpr
      ⟨badInitMessage,
        "Schema contains item pic that is missing from the content.",
        rfl, rfl, rfl, rfl⟩,
   (c9_handler_throws_only_on_validation RunningMode.HOSTED badContentOpts
      SdkV1.initialState (SdkV1.Message.init badInitMessage)).2 false⟩

/-- Witness for C10: after the mock init message (whose content is `null`),
`getContent` answers `undefined` rather than throwing. -/
theorem c10_accessors_before_content_witness :
    SdkV1.getContent { SdkV1.initialState with initMessage := some mockInitV1 } = .ok none ∧
    SdkV1.getLayout { SdkV1.initialState with initMessage := some mockInitV1 } = .ok mockLayout :=
  ⟨(c10_accessors_before_content RunningMode.HOSTED emptySchemaOpts mockInitV1
      SdkV1.initialState rfl rfl rfl).2.1,
   (c10_accessors_before_content RunningMode.HOSTED emptySchemaOpts mockInitV1
      SdkV1.initialState rfl rfl rfl).2.2.1⟩

end Ordamo
